import Mathlib

/-!
Verification of the flashcard review-scheduling core of the
Memory-Focused-Language-Learning-App repository.

The embedding below translates the persistence-facing operations of
`src/app/db.py` (class `FlashcardDB`) and the rendering/aggregation logic of
`src/app/components.py` into Lean. Timestamps are modelled as integers
(seconds); the record layout follows the persisted field names of §6 of the
spec (`id, user_id, content, status, created_at, last_checked_at,
status_once_checked_at, status_twice_checked_at, status_fully_memorized_at,
next_review_at`). The `status` field is kept as a raw string, exactly as the
Python code dispatches on it. The Supabase table is modelled as a list of
records; a query's `response.data` is the list of affected rows.
-/

namespace LanguageApp

/-- Timestamps, in seconds. `datetime` values in the source become integers;
`timedelta(hours=h)` becomes `h * 3600`. -/
abbrev Time := Int

/-- One persisted flashcard row, with the column names of the `flashcards`
table as used throughout `src/app/db.py`. Nullable timestamp columns are
`Option Time`. -/
structure Card where
  id : Int
  user_id : String
  content : String
  status : String
  created_at : Time
  last_checked_at : Option Time
  status_once_checked_at : Option Time
  status_twice_checked_at : Option Time
  status_fully_memorized_at : Option Time
  next_review_at : Option Time
deriving DecidableEq, Repr

/-- The four known status strings of the persisted record layout. -/
def knownStatuses : List String :=
  ["to-learn", "once-checked", "twice-checked", "fully-memorized"]

/-- `FlashcardDB.update_flashcard_status` (src/app/db.py lines 89–144), as the
effect of the computed `data` dict on the row it is applied to. `now` is the
value of the internal `datetime.now(timezone.utc)` read at the top of the
function. The Python code dispatches on the raw `new_status` string with a
catch-all `else` branch commented `# to-learn`; fields absent from the `data`
dict are left unchanged by the store update. -/
def update_flashcard_status (card : Card) (new_status : String) (now : Time) : Card :=
  if new_status = "once-checked" then
    { card with
      status := new_status
      status_once_checked_at := some now
      last_checked_at := some now
      next_review_at := some (now + 24 * 3600) }
  else if new_status = "twice-checked" then
    { card with
      status := new_status
      status_twice_checked_at := some now
      last_checked_at := some now
      next_review_at := some (now + 48 * 3600) }
  else if new_status = "fully-memorized" then
    { card with
      status := new_status
      status_fully_memorized_at := some now
      last_checked_at := some now
      next_review_at := none }
  else
    { card with
      status := new_status
      last_checked_at := some now
      next_review_at := some now }

/-- `FlashcardDB.add_flashcard` (src/app/db.py lines 21–41): the inserted row.
The code supplies `user_id`, `content`, `status = "to-learn"` and
`next_review_at = now` (the internal clock read); the store assigns `id` and
`created_at`, and the timestamp columns absent from the insert payload are
null. -/
def add_flashcard (uid content : String) (now : Time) (fid : Int) (created : Time) : Card :=
  { id := fid
    user_id := uid
    content := content
    status := "to-learn"
    created_at := created
    last_checked_at := none
    status_once_checked_at := none
    status_twice_checked_at := none
    status_fully_memorized_at := none
    next_review_at := some now }

/-- The row-level filter of the due query in `FlashcardDB.get_due_flashcards`
(src/app/db.py lines 64–86): `eq("user_id", uid)`, `neq("status",
"fully-memorized")`, `lte("next_review_at", now)`. A SQL comparison with a
null `next_review_at` is not satisfied, so null rows are excluded. -/
def dueFilter (uid : String) (now : Time) (c : Card) : Bool :=
  c.user_id == uid && !(c.status == "fully-memorized") &&
    (match c.next_review_at with
     | some t => decide (t ≤ now)
     | none => false)

/-- Sort key of `order("next_review_at")`: every row passing `dueFilter` has a
non-null `next_review_at`, so the default for null is never observed. -/
def dueKey (c : Card) : Int := c.next_review_at.getD 0

/-- The ascending order used by the due query: by `next_review_at` only. -/
def dueLe (a b : Card) : Prop := dueKey a ≤ dueKey b

instance : DecidableRel dueLe := fun a b =>
  inferInstanceAs (Decidable (dueKey a ≤ dueKey b))

instance : IsTotal Card dueLe := ⟨fun a b => Int.le_total (dueKey a) (dueKey b)⟩

instance : IsTrans Card dueLe := ⟨fun _ _ _ => Int.le_trans⟩

/-- `FlashcardDB.get_due_flashcards` (src/app/db.py lines 64–86) over a list
model of the table: filter, order ascending by `next_review_at` (the query
names no further sort key; a stable sort keeps tied rows in table order),
truncate to `limit`. `now` is the internal `datetime.now(timezone.utc)` read. -/
def get_due_flashcards (db : List Card) (uid : String) (now : Time) (limit : Nat) :
    List Card :=
  (List.insertionSort dueLe (db.filter (dueFilter uid now))).take limit

/-- `FlashcardDB.get_flashcards` (src/app/db.py lines 43–61): all rows of the
owner, ordered by `created_at` descending. -/
def get_flashcards (db : List Card) (uid : String) : List Card :=
  List.insertionSort (fun a b => a.created_at ≥ b.created_at)
    (db.filter (fun c => c.user_id == uid))

/-- `FlashcardDB.update_flashcard_status` at the store level: the update is
applied to the rows matching `eq("id", flashcard_id)` and the function returns
`response.data[0] if response.data else None`. -/
def update_flashcard_status_db (db : List Card) (fid : Int) (new_status : String)
    (now : Time) : Option Card :=
  ((db.filter (fun c => c.id == fid)).map
    (fun c => update_flashcard_status c new_status now)).head?

/-- `FlashcardDB.delete_flashcard` (src/app/db.py lines 146–160): deletes the
rows matching the id and returns `len(response.data) > 0`. -/
def delete_flashcard (db : List Card) (fid : Int) : Bool :=
  decide ((db.filter (fun c => c.id == fid)).length > 0)

/-- The remaining-wait branch of `render_flashcard` (src/app/components.py
lines 50–88): when the card's status is `once-checked` (resp.
`twice-checked`) and its stage-entry timestamp is present, the code computes
`time_passed = now - checked_at`; if fewer than 24 (resp. 48) hours have
passed it writes `hours_left = 24 - time_passed/3600` (resp. with 48).
`some h` is the displayed hours-left value, `none` means no wait is shown
(a promotion button or nothing is rendered instead). -/
def render_wait (c : Card) (now : Time) : Option ℚ :=
  if c.status = "once-checked" then
    match c.status_once_checked_at with
    | some checked_at =>
        if now - checked_at ≥ 24 * 3600 then none
        else some (24 - ((now - checked_at : Int) : ℚ) / 3600)
    | none => none
  else if c.status = "twice-checked" then
    match c.status_twice_checked_at with
    | some checked_at =>
        if now - checked_at ≥ 48 * 3600 then none
        else some (48 - ((now - checked_at : Int) : ℚ) / 3600)
    | none => none
  else none

/-- The per-status counts of `render_flashcard_stats` (src/app/components.py
lines 123–152): `sum(1 for card in flashcards if card["status"] == s)`. -/
def countStatus (cards : List Card) (s : String) : Nat :=
  (cards.filter (fun c => c.status == s)).length

/-- The progress value of `render_flashcard_stats`:
`(once_checked * 0.33 + twice_checked * 0.67 + fully_memorized) / total if
total > 0 else 0`, with the arithmetic carried out exactly in `ℚ`. -/
def progress (cards : List Card) : ℚ :=
  if cards.length > 0 then
    ((countStatus cards "once-checked" : ℚ) * 0.33 +
      (countStatus cards "twice-checked" : ℚ) * 0.67 +
      (countStatus cards "fully-memorized" : ℚ)) / (cards.length : ℚ)
  else 0

/-- `render_flashcard_stats` (src/app/components.py lines 123–152) as the
values it renders: the code begins with `if not flashcards: st.info(...);
return`, so the empty list produces `none` (an info message, no counts and
no progress bar); otherwise the four per-status counts in display order are
rendered together with the progress value. -/
def render_flashcard_stats (cards : List Card) :
    Option ((Nat × Nat × Nat × Nat) × ℚ) :=
  if cards.isEmpty then none
  else
    some ((countStatus cards "to-learn", countStatus cards "once-checked",
      countStatus cards "twice-checked", countStatus cards "fully-memorized"),
      progress cards)

/-- The data-model invariant of §3 of the spec: `next_due_at` is non-null
unless `stage = FullyMemorized`. -/
def nextDueInv (c : Card) : Prop :=
  c.status = "fully-memorized" ∨ c.next_review_at ≠ none

instance (c : Card) : Decidable (nextDueInv c) :=
  inferInstanceAs (Decidable (_ ∨ _))

/-- Strictly-later on nullable timestamps: both present and the second one
greater. -/
def optLt : Option Time → Option Time → Prop
  | some x, some y => x < y
  | _, _ => False

instance (a b : Option Time) : Decidable (optLt a b) := by
  cases a <;> cases b <;> simp only [optLt] <;> infer_instance

/-- The Due-Set Selector as §4.2 of the spec words it, for comparison with
`get_due_flashcards`: same eligibility filter and limit, but ordered
ascending by `next_due_at` with ties broken by `id`. -/
def specLe (a b : Card) : Prop :=
  dueKey a < dueKey b ∨ (dueKey a = dueKey b ∧ a.id ≤ b.id)

instance : DecidableRel specLe := fun _ _ =>
  inferInstanceAs (Decidable (_ ∨ _))

/-- `select_due` as specified in §4.2 (spec wording, not source code). -/
def select_due_spec (db : List Card) (uid : String) (now : Time) (limit : Nat) :
    List Card :=
  (List.insertionSort specLe (db.filter (dueFilter uid now))).take limit

/-- A bare card for concrete evaluations. -/
def baseCard : Card :=
  { id := 1
    user_id := "u"
    content := "Guten Tag"
    status := "to-learn"
    created_at := 0
    last_checked_at := none
    status_once_checked_at := none
    status_twice_checked_at := none
    status_fully_memorized_at := none
    next_review_at := some 0 }

/-- A card whose `next_review_at` lies in the future of time 0. -/
def dueSoonCard : Card := { baseCard with next_review_at := some 3600 }

/-- A card sitting in `once-checked`, having entered that stage at time 0. -/
def onceCard : Card :=
  { baseCard with status := "once-checked", status_once_checked_at := some 0 }

/-- Two due cards with equal `next_review_at` whose ids are out of order
relative to their table order. -/
def tieCardA : Card := { baseCard with id := 2 }

/-- See `tieCardA`. -/
def tieCardB : Card := { baseCard with id := 1 }

/-- A card that belongs to another owner and has another id. -/
def otherCard : Card := { baseCard with id := 7, user_id := "v" }

/-- A four-card collection holding exactly one card per stage. -/
def fourStageCards : List Card :=
  [baseCard,
   { baseCard with id := 2, status := "once-checked" },
   { baseCard with id := 3, status := "twice-checked" },
   { baseCard with id := 4, status := "fully-memorized" }]

/-- C1: the stage-transition writes exactly the fields of the fixed table of
§4.1, independent of the card's current stage: `once-checked` sets its entry
timestamp, `last_checked_at = now` and `next_review_at = now + 24h`;
`twice-checked` the same with 48h; `fully-memorized` sets its entry
timestamp, `last_checked_at = now` and a null `next_review_at`; `to-learn`
sets only `last_checked_at = now` and `next_review_at = now`. -/
theorem update_status_table (c : Card) (now : Time) :
    update_flashcard_status c "once-checked" now =
      { c with
        status := "once-checked"
        status_once_checked_at := some now
        last_checked_at := some now
        next_review_at := some (now + 24 * 3600) } ∧
    update_flashcard_status c "twice-checked" now =
      { c with
        status := "twice-checked"
        status_twice_checked_at := some now
        last_checked_at := some now
        next_review_at := some (now + 48 * 3600) } ∧
    update_flashcard_status c "fully-memorized" now =
      { c with
        status := "fully-memorized"
        status_fully_memorized_at := some now
        last_checked_at := some now
        next_review_at := none } ∧
    update_flashcard_status c "to-learn" now =
      { c with
        status := "to-learn"
        last_checked_at := some now
        next_review_at := some now } :=
  ⟨rfl, rfl, rfl, rfl⟩

/-- C8 (frame): transitioning to `to-learn` leaves every stage-entry
timestamp, the id, the owner, the content and the creation time unchanged;
transitioning to `once-checked` (resp. `twice-checked`) leaves the other
stages' entry timestamps unchanged. -/
theorem update_status_frame (c : Card) (now : Time) :
    ((update_flashcard_status c "to-learn" now).status_once_checked_at =
        c.status_once_checked_at ∧
      (update_flashcard_status c "to-learn" now).status_twice_checked_at =
        c.status_twice_checked_at ∧
      (update_flashcard_status c "to-learn" now).status_fully_memorized_at =
        c.status_fully_memorized_at ∧
      (update_flashcard_status c "to-learn" now).id = c.id ∧
      (update_flashcard_status c "to-learn" now).user_id = c.user_id ∧
      (update_flashcard_status c "to-learn" now).content = c.content ∧
      (update_flashcard_status c "to-learn" now).created_at = c.created_at) ∧
    ((update_flashcard_status c "once-checked" now).status_twice_checked_at =
        c.status_twice_checked_at ∧
      (update_flashcard_status c "once-checked" now).status_fully_memorized_at =
        c.status_fully_memorized_at) ∧
    ((update_flashcard_status c "twice-checked" now).status_once_checked_at =
        c.status_once_checked_at ∧
      (update_flashcard_status c "twice-checked" now).status_fully_memorized_at =
        c.status_fully_memorized_at) :=
  ⟨⟨rfl, rfl, rfl, rfl, rfl, rfl, rfl⟩, ⟨rfl, rfl⟩, ⟨rfl, rfl⟩⟩

/-- C6: `next_review_at` is non-null unless `status = "fully-memorized"`:
creation produces a `to-learn` card with `next_review_at = now`, and every
branch of the stage-transition establishes the invariant outright (the
`fully-memorized` branch is the only one writing null). -/
theorem next_due_invariant (uid content : String) (now : Time) (fid : Int)
    (created : Time) :
    (add_flashcard uid content now fid created).status = "to-learn" ∧
    (add_flashcard uid content now fid created).next_review_at = some now ∧
    nextDueInv (add_flashcard uid content now fid created) ∧
    ∀ (c : Card) (s : String) (t : Time),
      nextDueInv (update_flashcard_status c s t) := by
  refine ⟨rfl, rfl, Or.inr (by simp [add_flashcard]), ?_⟩
  intro c s t
  unfold update_flashcard_status nextDueInv
  split_ifs with h1 h2 h3 <;> simp [*]

/-- C3 (counterexample): a malformed status string is not rejected. The
update operation applied with the unknown status `"bogus"` writes the string
through unchanged and schedules the card like the `to-learn` branch. -/
theorem unknown_status_not_rejected :
    (update_flashcard_status baseCard "bogus" 0).status = "bogus" ∧
    (update_flashcard_status baseCard "bogus" 0).next_review_at = some 0 :=
  ⟨rfl, rfl⟩

/-- C3 (amended): any status string other than the four known values falls
into the catch-all `else` branch of the update operation: it is written
through as the new status, with `last_checked_at = now` and
`next_review_at = now` — the `to-learn` timing — rather than being rejected. -/
theorem unknown_status_passed_through (c : Card) (s : String) (now : Time)
    (h1 : s ≠ "once-checked") (h2 : s ≠ "twice-checked")
    (h3 : s ≠ "fully-memorized") (h4 : s ≠ "to-learn") :
    update_flashcard_status c s now =
      { c with
        status := s
        last_checked_at := some now
        next_review_at := some now } := by
  have : s ≠ "to-learn" := h4
  simp [update_flashcard_status, h1, h2, h3]

/-- Witness for `unknown_status_passed_through` at the malformed status
`"bogus"`. -/
theorem unknown_status_passed_through_witness :
    update_flashcard_status baseCard "bogus" 5 =
      { baseCard with
        status := "bogus"
        last_checked_at := some 5
        next_review_at := some 5 } :=
  unknown_status_passed_through baseCard "bogus" 5
    (by decide) (by decide) (by decide) (by decide)

/-- C4 (counterexample): both operations read the ambient clock internally
(`datetime.now(timezone.utc)` at src/app/db.py lines 75 and 100). With equal
caller-supplied arguments but two different clock instants, the transition
produces different records and the due query different result lists. -/
theorem clock_read_counterexample :
    update_flashcard_status baseCard "to-learn" 0 ≠
      update_flashcard_status baseCard "to-learn" 3600 ∧
    get_due_flashcards [dueSoonCard] "u" 0 10 ≠
      get_due_flashcards [dueSoonCard] "u" 7200 10 := by
  constructor <;> decide

/-- C4 (amended): the stage-transition records the internally-read clock
instant in `last_checked_at` on every branch, so two runs with equal
caller-supplied arguments but distinct clock instants always differ — the
operations are deterministic only once the internal clock reading is treated
as an explicit input. -/
theorem clock_dependence (c : Card) (s : String) (t1 t2 : Time) (h : t1 ≠ t2) :
    (update_flashcard_status c s t1).last_checked_at ≠
      (update_flashcard_status c s t2).last_checked_at := by
  unfold update_flashcard_status
  split_ifs <;> simp [h]

/-- Witness for `clock_dependence` at clock instants 1 and 2. -/
theorem clock_dependence_witness :
    (update_flashcard_status baseCard "to-learn" 1).last_checked_at ≠
      (update_flashcard_status baseCard "to-learn" 2).last_checked_at :=
  clock_dependence baseCard "to-learn" 1 2 (by decide)

/-- C7 (counterexample): repeating the `fully-memorized` transition at a
later time does not advance `next_review_at`: it is null after both the
first and the second application, so it is not strictly later. -/
theorem repeat_fully_memorized_counterexample :
    ¬ optLt (update_flashcard_status baseCard "fully-memorized" 0).next_review_at
        (update_flashcard_status
          (update_flashcard_status baseCard "fully-memorized" 0)
          "fully-memorized" 1).next_review_at := by
  decide

/-- C7 (amended): applying the transition twice with the same requested
stage at strictly increasing times advances `last_checked_at` strictly for
every stage, and advances `next_review_at` strictly for every stage except
`fully-memorized`, whose `next_review_at` is null after both applications. -/
theorem repeat_transition_advances (c : Card) (s : String) (t1 t2 : Time)
    (hs : s ∈ knownStatuses) (h : t1 < t2) :
    optLt (update_flashcard_status c s t1).last_checked_at
        (update_flashcard_status (update_flashcard_status c s t1) s t2).last_checked_at ∧
    (s ≠ "fully-memorized" →
      optLt (update_flashcard_status c s t1).next_review_at
        (update_flashcard_status (update_flashcard_status c s t1) s t2).next_review_at) ∧
    (s = "fully-memorized" →
      (update_flashcard_status c s t1).next_review_at = none ∧
      (update_flashcard_status
        (update_flashcard_status c s t1) s t2).next_review_at = none) := by
  simp only [knownStatuses, List.mem_cons, List.not_mem_nil, or_false] at hs
  rcases hs with h1 | h1 | h1 | h1 <;> subst h1 <;>
    refine ⟨?_, ?_, ?_⟩ <;> simp [update_flashcard_status, optLt] <;> exact h

/-- Witness for `repeat_transition_advances` at stage `to-learn`, times 0
and 1. -/
theorem repeat_transition_advances_witness :
    optLt (update_flashcard_status baseCard "to-learn" 0).last_checked_at
        (update_flashcard_status (update_flashcard_status baseCard "to-learn" 0)
          "to-learn" 1).last_checked_at :=
  (repeat_transition_advances baseCard "to-learn" 0 1 (by decide) (by decide)).1

/-- C2 (counterexample): two due cards with equal `next_review_at` whose ids
are out of order relative to the table order. The due query, which orders by
`next_review_at` only, keeps them in table order `[2, 1]`, while the spec's
id tie-break would produce `[1, 2]`. -/
theorem get_due_tie_counterexample :
    (get_due_flashcards [tieCardA, tieCardB] "u" 0 10).map (fun c => c.id) = [2, 1] ∧
    (select_due_spec [tieCardA, tieCardB] "u" 0 10).map (fun c => c.id) = [1, 2] := by
  constructor <;> decide

/-- C2 (amended): the due query returns `min(limit, #due)` cards, sorted
ascending by `next_review_at`, and the result is a subpermutation of the set
of due cards of the owner; ties are not broken by id (the query orders by
`next_review_at` only, so tied rows keep the table order). -/
theorem get_due_selection (db : List Card) (uid : String) (now : Time)
    (limit : Nat) :
    (get_due_flashcards db uid now limit).length =
      min limit (db.filter (dueFilter uid now)).length ∧
    List.Sorted dueLe (get_due_flashcards db uid now limit) ∧
    List.Subperm (get_due_flashcards db uid now limit)
      (db.filter (dueFilter uid now)) := by
  refine ⟨?_, ?_, ?_⟩
  · rw [get_due_flashcards, List.length_take, List.length_insertionSort]
  · exact List.Pairwise.sublist (List.take_sublist _ _)
      (List.sorted_insertionSort dueLe _)
  · exact ((List.take_sublist _ _).subperm).trans
      (List.perm_insertionSort dueLe _).subperm

/-- C5 (counterexample): the stats renderer applied to the empty list fires
the early `if not flashcards` guard: it renders an info message and no
counts and no ratio at all, rather than four zero counts and ratio 0. -/
theorem stats_empty_counterexample :
    render_flashcard_stats ([] : List Card) = none :=
  rfl

/-- C5 (amended): for every nonempty collection the renderer produces the
four per-stage counts and the progress value; the counts partition any
collection whose statuses are among the four known values; the progress
value equals `(0.33·once + 0.67·twice + 1.0·fully) / total` computed
exactly; the `total = 0` guard of the ratio expression yields 0 if
evaluated on the empty list (though the renderer returns early before it);
and a collection with one card per stage yields progress 1/2. -/
theorem stats_aggregate :
    (∀ cards : List Card, cards ≠ [] →
      render_flashcard_stats cards =
        some ((countStatus cards "to-learn", countStatus cards "once-checked",
          countStatus cards "twice-checked", countStatus cards "fully-memorized"),
          progress cards)) ∧
    (∀ cards : List Card, (∀ c ∈ cards, c.status ∈ knownStatuses) →
      countStatus cards "to-learn" + countStatus cards "once-checked" +
        countStatus cards "twice-checked" + countStatus cards "fully-memorized" =
        cards.length) ∧
    (∀ cards : List Card,
      progress cards =
        ((33 : ℚ) / 100 * countStatus cards "once-checked" +
          (67 : ℚ) / 100 * countStatus cards "twice-checked" +
          countStatus cards "fully-memorized") / cards.length) ∧
    progress [] = 0 ∧
    progress fourStageCards = 1 / 2 := by
  refine ⟨?_, ?_, ?_, rfl, ?_⟩
  · intro cards h
    cases cards with
    | nil => exact absurd rfl h
    | cons a l => rfl
  · intro cards h
    induction cards with
    | nil => rfl
    | cons c cs ih =>
      have hc := h c (List.mem_cons_self _ _)
      have ih' := ih fun x hx => h x (List.mem_cons_of_mem _ hx)
      simp only [knownStatuses, List.mem_cons, List.not_mem_nil, or_false] at hc
      rcases hc with h1 | h1 | h1 | h1 <;>
        simp [countStatus, List.filter_cons, h1] at ih' ⊢ <;> omega
  · intro cards
    rcases Nat.eq_zero_or_pos cards.length with h | h
    · rw [List.length_eq_zero.mp h]
      simp [progress, countStatus]
    · rw [progress, if_pos h]
      norm_num
      ring
  · have c1 : countStatus fourStageCards "once-checked" = 1 := by decide
    have c2 : countStatus fourStageCards "twice-checked" = 1 := by decide
    have c3 : countStatus fourStageCards "fully-memorized" = 1 := by decide
    have hl : fourStageCards.length = 4 := by decide
    rw [progress, c1, c2, c3, hl]
    norm_num

/-- Witness for `stats_aggregate`: the four-stage collection is rendered,
its counts partition it, and its progress is 1/2. -/
theorem stats_aggregate_witness :
    render_flashcard_stats fourStageCards = some ((1, 1, 1, 1), progress fourStageCards) ∧
    countStatus fourStageCards "to-learn" + countStatus fourStageCards "once-checked" +
      countStatus fourStageCards "twice-checked" +
      countStatus fourStageCards "fully-memorized" = fourStageCards.length := by
  refine ⟨?_, stats_aggregate.2.1 fourStageCards (by decide)⟩
  rw [stats_aggregate.1 fourStageCards (by decide)]
  rfl

/-- C9: while a card sits in `once-checked` with
`now < stage_entered_at + 24h`, the rendered hours-left value equals the
remaining wait `24h − (now − stage_entered_at)` expressed in hours;
symmetrically for `twice-checked` with a 48h window. -/
theorem render_wait_formula (c : Card) (now entered : Time) :
    (c.status = "once-checked" → c.status_once_checked_at = some entered →
      now < entered + 24 * 3600 →
      render_wait c now =
        some (((24 * 3600 - (now - entered) : Int) : ℚ) / 3600)) ∧
    (c.status = "twice-checked" → c.status_twice_checked_at = some entered →
      now < entered + 48 * 3600 →
      render_wait c now =
        some (((48 * 3600 - (now - entered) : Int) : ℚ) / 3600)) := by
  constructor
  · intro h1 h2 h3
    have hge : ¬ (now - entered ≥ 24 * 3600) := by intro hc; linarith
    rw [render_wait, if_pos h1, h2]
    simp only [hge, if_false]
    rw [Option.some_inj]
    push_cast
    ring
  · intro h1 h2 h3
    have hne : ¬ c.status = "once-checked" := by rw [h1]; decide
    have hge : ¬ (now - entered ≥ 48 * 3600) := by intro hc; linarith
    rw [render_wait, if_neg hne, if_pos h1, h2]
    simp only [hge, if_false]
    rw [Option.some_inj]
    push_cast
    ring

/-- Witness for `render_wait_formula`: a card one hour into its
`once-checked` window displays 23 remaining hours. -/
theorem render_wait_formula_witness :
    render_wait onceCard 3600 =
      some (((24 * 3600 - (3600 - 0) : Int) : ℚ) / 3600) :=
  (render_wait_formula onceCard 3600 0).1 rfl rfl (by decide)

/-- C10: operating on an id absent from the table makes the update return
`none` and `delete` return `false`; an owner with no rows gets `[]` from
both the full listing and the due query. All four absent cases are signalled
by the return value; none raises. -/
theorem absent_id_and_owner (db : List Card) (fid : Int) (uid s : String)
    (t now : Time) (limit : Nat)
    (hid : ∀ c ∈ db, c.id ≠ fid) (huid : ∀ c ∈ db, c.user_id ≠ uid) :
    update_flashcard_status_db db fid s t = none ∧
    delete_flashcard db fid = false ∧
    get_flashcards db uid = [] ∧
    get_due_flashcards db uid now limit = [] := by
  have h1 : db.filter (fun c => c.id == fid) = [] := by
    rw [List.filter_eq_nil_iff]
    intro c hc
    simp [hid c hc]
  have h2 : db.filter (fun c => c.user_id == uid) = [] := by
    rw [List.filter_eq_nil_iff]
    intro c hc
    simp [huid c hc]
  have h3 : db.filter (dueFilter uid now) = [] := by
    rw [List.filter_eq_nil_iff]
    intro c hc
    simp [dueFilter, huid c hc]
  refine ⟨?_, ?_, ?_, ?_⟩ <;>
    simp [update_flashcard_status_db, delete_flashcard, get_flashcards,
      get_due_flashcards, h1, h2, h3]

/-- Witness for `absent_id_and_owner`: a one-row table holding a card of
owner `"v"` with id 7, queried for id 9 and owner `"u"`. -/
theorem absent_id_and_owner_witness :
    update_flashcard_status_db [otherCard] 9 "once-checked" 0 = none ∧
    delete_flashcard [otherCard] 9 = false ∧
    get_flashcards [otherCard] "u" = [] ∧
    get_due_flashcards [otherCard] "u" 0 10 = [] :=
  absent_id_and_owner [otherCard] 9 "u" "once-checked" 0 0 10
    (by decide) (by decide)

end LanguageApp
